import Mathlib

/-!
Shallow embedding of `src/src/testsubdivsion.py` (repository
XNET-Foundation/x5-geometry).

The script loads triangle geometry from an external generator process,
turns each triangle into a closed polygon, scales the list by 10, draws
three "ring" index ranges `[0,6)`, `[6,30)`, `[30,126)` in two drawable
targets (a DXF file writer `d` and an OpenGL viewer `dGl`), labels each
triangle's centroid, draws a legend, and finally calls `display()` on
both targets.

Numeric coordinates are modelled as rationals (exact arithmetic).  The
yapCAD geometry helpers (`point`, `add`, `scale3`, `scale`, `translate`)
are external library code not present under `src/`; they are modelled
from the spec's data model and transform contracts.  The drawable
targets are opaque collaborators: the `__main__` block is modelled as
the ordered trace of `draw`/`draw_text`/`display` calls it issues,
each call recording the target's current `linecolor`.
-/

namespace X5

/-- A yapCAD point, modelled from the spec: "Point: 2 or 3 numeric
coordinates".  A 2-coordinate point has `z = 0`. -/
structure Point where
  x : ℚ
  y : ℚ
  z : ℚ
deriving DecidableEq, Repr

/-- Modelled from the spec: the yapCAD `point(x,y)` constructor applied to
a parsed `{x,y}` coordinate pair (missing third coordinate is zero). -/
def point2 (v : ℚ × ℚ) : Point := ⟨v.1, v.2, 0⟩

/-- Modelled from the spec: the yapCAD `point(x,y,z)` constructor. -/
def point3 (x y z : ℚ) : Point := ⟨x, y, z⟩

/-- The origin point, default value for out-of-range list accesses. -/
def pzero : Point := ⟨0, 0, 0⟩

/-- Modelled from the spec: yapCAD vector addition `add(a,b)`,
componentwise. -/
def add (a b : Point) : Point := ⟨a.x + b.x, a.y + b.y, a.z + b.z⟩

/-- Modelled from the spec: yapCAD `scale3(p,s)`, multiplying each
coordinate of one point by the scalar `s`. -/
def scale3 (p : Point) (s : ℚ) : Point := ⟨p.x * s, p.y * s, p.z * s⟩

/-- Multiplication of every coordinate of a point by `k`, the pointwise
action of the spec's uniform scale. -/
def scalePoint (k : ℚ) (p : Point) : Point := ⟨k * p.x, k * p.y, k * p.z⟩

/-- Modelled from the spec: yapCAD `scale(geom,k)` on a geometry list,
"multiplies every coordinate of every primitive by k, exactly, with no
effect on ordering". -/
def scaleG (g : List (List Point)) (k : ℚ) : List (List Point) :=
  g.map (fun poly => poly.map (scalePoint k))

/-- Modelled from the spec: yapCAD `translate(geom,delta)`, adding the
offset `delta` to every point of every primitive. -/
def translateG (g : List (List Point)) (delta : Point) : List (List Point) :=
  g.map (fun poly => poly.map (fun p => add p delta))

/-- One triangle record parsed from the generator's JSON output: a
3-element array of `{x,y}` objects (`tri[0]`, `tri[1]`, `tri[2]`). -/
structure TriIn where
  v0 : ℚ × ℚ
  v1 : ℚ × ℚ
  v2 : ℚ × ℚ
deriving DecidableEq, Repr

/-- The body of the `for tri in data` loop of `geometry()`: build
`p1,p2,p3` from the record and append the closed polygon
`[p1, p2, p3, p1]`. -/
def triPoly (t : TriIn) : List Point :=
  [point2 t.v0, point2 t.v1, point2 t.v2, point2 t.v0]

/-- `geometry()` of the source, abstracted over the parsed data it reads
from the external process: turn every triangle into a closed polygon,
in input order, then `geom = scale(geom, 10.0)`. -/
def geometry (data : List TriIn) : List (List Point) :=
  scaleG (data.map triPoly) 10

/-- Python exceptions that can terminate the run. -/
inductive PyErr where
  | calledProcessError
  | typeError
  | indexError
deriving DecidableEq, Repr

/-- `run_node_script` of the source, abstracted over the external
process's observable outcome: its exit code, and the result of JSON
parsing its standard output (`none` models a `json.JSONDecodeError`).
`check=True` raises `CalledProcessError` on a non-zero exit code; a JSON
decode error is caught, printed, and turned into a `None` return. -/
def run_node_script (exitCode : ℕ) (parsed : Option (List TriIn)) :
    Except PyErr (Option (List TriIn)) :=
  if exitCode ≠ 0 then .error .calledProcessError else .ok parsed

/-- `geometry()` including its call to `run_node_script`: when the script
returns `None` (JSON decode error), the very next statement
`len(data)` raises a `TypeError`; otherwise the polygon list is built. -/
def geometryE (exitCode : ℕ) (parsed : Option (List TriIn)) :
    Except PyErr (List (List Point)) :=
  match run_node_script exitCode parsed with
  | .error e => .error e
  | .ok none => .error .typeError
  | .ok (some data) => .ok (geometry data)

/-- The two drawable targets: the DXF file writer `d` and the OpenGL
viewer `dGl`. -/
inductive Target where
  | dxf
  | gl
deriving DecidableEq, Repr

/-- A `linecolor` value: a named color string or a DXF index color. -/
inductive Color where
  | white
  | yellow
  | red
  | index (n : ℕ)
deriving DecidableEq, Repr

/-- One call issued on a drawable target by the `__main__` block: a
`draw` of a geometry list, a `draw_text` of a string at a point, or the
final `display()`.  `draw` and `draw_text` record the target's current
`linecolor`. -/
inductive Ev where
  | draw (t : Target) (c : Color) (g : List (List Point))
  | drawText (t : Target) (c : Color) (s : String) (p : Point)
  | display (t : Target)
deriving DecidableEq, Repr

/-- Whether an event is a `display()` call. -/
def Ev.isDisplay : Ev → Bool
  | .display _ => true
  | _ => false

/-- Whether an event is a `draw` call. -/
def Ev.isDraw : Ev → Bool
  | .draw _ _ _ => true
  | _ => false

/-- `up1 = point(0,0,0.3)` of the source. -/
def up1 : Point := point3 0 0 (3 / 10)

/-- `up2 = point(0,0,0.6)` of the source. -/
def up2 : Point := point3 0 0 (6 / 10)

/-- The indices of ring 1: `range(0,6)`. -/
def ringIdx1 : List ℕ := List.range' 0 6

/-- The indices of ring 2: `range(6,30)`. -/
def ringIdx2 : List ℕ := List.range' 6 24

/-- The indices of ring 3: `range(30,126)`. -/
def ringIdx3 : List ℕ := List.range' 30 96

/-- The sub-list `geo` built by one ring loop: `geomlist[i]` for each
`i` of the ring's index range, in order. -/
def ringSlice (g : List (List Point)) (idxs : List ℕ) : List (List Point) :=
  idxs.map (fun i => g.getD i [])

/-- Events of the ring-1 loop: `d.draw(geo); dGl.draw(geo)` with
`linecolor='white'` on both targets. -/
def ring1Events (g : List (List Point)) : List Ev :=
  [ .draw .dxf .white (ringSlice g ringIdx1),
    .draw .gl .white (ringSlice g ringIdx1) ]

/-- Events of the ring-2 loop: `d.draw(geo)` untranslated,
`dGl.draw(translate(geo,up1))`, with `linecolor='yellow'`. -/
def ring2Events (g : List (List Point)) : List Ev :=
  [ .draw .dxf .yellow (ringSlice g ringIdx2),
    .draw .gl .yellow (translateG (ringSlice g ringIdx2) up1) ]

/-- Events of the ring-3 loop: `d.draw(geo)` untranslated,
`dGl.draw(translate(geo,up2))`, with `linecolor='red'`. -/
def ring3Events (g : List (List Point)) : List Ev :=
  [ .draw .dxf .red (ringSlice g ringIdx3),
    .draw .gl .red (translateG (ringSlice g ringIdx3) up2) ]

/-- The color the label loop sets on both targets for index `i`:
`'white'` if `i < 6`, `'yellow'` elif `i < 30`, else `'red'`. -/
def labelColor (i : ℕ) : Color :=
  if i < 6 then .white else if i < 30 then .yellow else .red

/-- The centroid computed by the label loop for triangle `t`:
`p = scale3(add(add(t[0],t[1]),t[2]), 1.0/3)`. -/
def centroid (t : List Point) : Point :=
  scale3 (add (add (t.getD 0 pzero) (t.getD 1 pzero)) (t.getD 2 pzero)) (1 / 3)

/-- The point the label loop passes to `draw_text` for index `i`: the
centroid, left in place for ring 1, shifted by `add(p,up1)` for ring 2
and by `add(p,up2)` for ring 3. -/
def labelPoint (i : ℕ) (t : List Point) : Point :=
  if i < 6 then centroid t
  else if i < 30 then add (centroid t) up1
  else add (centroid t) up2

/-- Events of the label loop `for i in range(len(geomlist))`: for each
index, `d.draw_text(s,p)` then `dGl.draw_text(s,p)` with
`s = str(i+1)`. -/
def labelEvents (g : List (List Point)) : List Ev :=
  (List.range g.length).flatMap (fun i =>
    [ .drawText .dxf (labelColor i) (toString (i + 1)) (labelPoint i (g.getD i [])),
      .drawText .gl (labelColor i) (toString (i + 1)) (labelPoint i (g.getD i [])) ])

/-- The three `draw_text` calls of `legend(d)`, on target `t` whose
current `linecolor` is `c` (text attribute dictionaries are not
modelled). -/
def legendEvents (t : Target) (c : Color) : List Ev :=
  [ .drawText t c ("X5 subdivision") (point3 5 15 0),
    .drawText t c ("test.py") (point3 5 12 0),
    .drawText t c ("hex subdivision test") (point3 5 10 0) ]

/-- The full trace of the `__main__` block after `geomlist = geometry()`
succeeded with at least 126 triangles: the three ring loops, the label
loop, `legend(d)` with `d.linecolor = 256`, `legend(dGl)` with
`dGl.linecolor = 'yellow'`, then `d.display()` and `dGl.display()`. -/
def mainTrace (g : List (List Point)) : List Ev :=
  ring1Events g ++ ring2Events g ++ ring3Events g ++ labelEvents g
    ++ legendEvents .dxf (.index 256) ++ legendEvents .gl .yellow
    ++ [.display .dxf, .display .gl]

/-- The `__main__` block on a geometry list of arbitrary length: each
ring loop reads `geomlist[i]` up to index 5, 29, 125 respectively, so a
list shorter than 126 raises `IndexError` part-way through, after the
events of the completed loops. -/
def mainTraceChecked (g : List (List Point)) : List Ev × Option PyErr :=
  if g.length < 6 then ([], some .indexError)
  else if g.length < 30 then (ring1Events g, some .indexError)
  else if g.length < 126 then (ring1Events g ++ ring2Events g, some .indexError)
  else (mainTrace g, none)

/-- The whole pipeline: `run_node_script`, `geometry()`, then the
drawing code of `__main__`.  Returns the events issued on the drawable
targets before termination, and the Python exception if the run
aborted. -/
def pipeline (exitCode : ℕ) (parsed : Option (List TriIn)) :
    List Ev × Option PyErr :=
  match geometryE exitCode parsed with
  | .error e => ([], some e)
  | .ok geomlist => mainTraceChecked geomlist

/-- The sample input triangle ((0,0),(1,0),(0,1)) of the spec. -/
def sampleTri : TriIn := ⟨(0, 0), (1, 0), (0, 1)⟩

lemma geometry_length (data : List TriIn) :
    (geometry data).length = data.length := by
  simp [geometry, scaleG]

set_option maxRecDepth 8000 in
/-- C1: the three ring index ranges `[0,6)`, `[6,30)`, `[30,126)` of the
ring draw loops exactly cover a 126-triangle input: concatenated in
order they are exactly the indices `0, ..., 125`, and every index
`i < 126` occurs in exactly one of the three ranges, with no gaps and no
overlaps. -/
theorem C1_ring_ranges_partition :
    ringIdx1 ++ ringIdx2 ++ ringIdx3 = List.range 126 ∧
    ∀ i < 126, (ringIdx1 ++ ringIdx2 ++ ringIdx3).count i
        = 1 ∧ ringIdx1.count i + ringIdx2.count i + ringIdx3.count i = 1 := by
  exact ⟨by decide, by decide⟩

/-- Witness for C1 at the concrete index 7 (drawn only by ring 2). -/
theorem C1_ring_ranges_partition_witness :
    (ringIdx1 ++ ringIdx2 ++ ringIdx3).count 7 = 1 ∧
    ringIdx1.count 7 + ringIdx2.count 7 + ringIdx3.count 7 = 1 :=
  C1_ring_ranges_partition.2 7 (by decide)

/-- C2: `geometry()` produces one polygon per input triangle: on a parsed
data list of length N the result has length N, and the i-th output
primitive is exactly the closed, scaled polygon of the i-th input
triangle, in input order. -/
theorem C2_one_polygon_per_triangle (data : List TriIn) :
    (geometry data).length = data.length ∧
    geometry data = data.map (fun t => (triPoly t).map (scalePoint 10)) ∧
    ∀ i : ℕ, (geometry data)[i]?
        = (data[i]?).map (fun t => (triPoly t).map (scalePoint 10)) := by
  refine ⟨geometry_length data, ?_, ?_⟩
  · simp [geometry, scaleG, List.map_map]
  · intro i
    simp [geometry, scaleG, List.getElem?_map]
    rfl

/-- C4: when the external process's standard output is malformed JSON
(`run_node_script` hits a `JSONDecodeError` and returns `None`), the
pipeline terminates with an exception (`len(None)` raises `TypeError`)
and no draw call is ever issued on either target: the event trace is
empty, whatever the exit code. -/
theorem C4_malformed_json_fails_before_draw :
    pipeline 0 none = ([], some .typeError) ∧
    ∀ exitCode : ℕ, (pipeline exitCode none).1 = []
        ∧ ((pipeline exitCode none).2).isSome = true := by
  refine ⟨rfl, ?_⟩
  intro exitCode
  by_cases h : exitCode = 0
  · subst h
    exact ⟨rfl, rfl⟩
  · simp [pipeline, geometryE, run_node_script, h]

/-- C5: a non-zero exit status of the external process makes
`run_node_script` raise `CalledProcessError` (because of `check=True`),
so the pipeline fails before any geometry list element is produced and
before any draw call: `geometryE` is an error and the event trace is
empty. -/
theorem C5_nonzero_exit_fails_before_geometry (exitCode : ℕ)
    (parsed : Option (List TriIn)) (h : exitCode ≠ 0) :
    run_node_script exitCode parsed = .error .calledProcessError ∧
    geometryE exitCode parsed = .error .calledProcessError ∧
    pipeline exitCode parsed = ([], some .calledProcessError) := by
  refine ⟨?_, ?_, ?_⟩ <;> simp [run_node_script, geometryE, pipeline, h]

/-- Witness for C5 at exit code 1. -/
theorem C5_nonzero_exit_fails_before_geometry_witness :
    run_node_script 1 (some [sampleTri]) = .error .calledProcessError ∧
    geometryE 1 (some [sampleTri]) = .error .calledProcessError ∧
    pipeline 1 (some [sampleTri]) = ([], some .calledProcessError) :=
  C5_nonzero_exit_fails_before_geometry 1 (some [sampleTri]) (by decide)

/-- C6: on the single input triangle ((0,0),(1,0),(0,1)) the scale by 10
applied in `geometry()` yields exactly the coordinates (0,0), (10,0),
(0,10) (the closing point repeating the first); and in general scaling a
geometry list by a factor k keeps the number and order of primitives and
of the points within each primitive, and multiplies every coordinate of
every point by exactly k. -/
theorem C6_scale_exact :
    geometry [sampleTri]
      = [[point3 0 0 0, point3 10 0 0, point3 0 10 0, point3 0 0 0]] ∧
    ∀ (g : List (List Point)) (k : ℚ),
      (scaleG g k).length = g.length ∧
      (∀ i : ℕ, (scaleG g k)[i]? = (g[i]?).map (fun poly => poly.map (scalePoint k))) ∧
      (∀ (poly : List Point) (j : ℕ),
        ((poly.map (scalePoint k))[j]?) = (poly[j]?).map (scalePoint k)) ∧
      ∀ p : Point, (scalePoint k p).x = k * p.x ∧ (scalePoint k p).y = k * p.y
          ∧ (scalePoint k p).z = k * p.z := by
  refine ⟨?_, ?_⟩
  · norm_num [geometry, scaleG, sampleTri, triPoly, point2, point3, scalePoint]
  · intro g k
    refine ⟨by simp [scaleG], ?_, ?_, fun p => ⟨rfl, rfl, rfl⟩⟩
    · intro i
      simp [scaleG, List.getElem?_map]
    · intro poly j
      simp [List.getElem?_map]

/-- C7: every polygon returned by `geometry()` is closed even after the
scale is applied: it is a list of exactly four points whose first point
is repeated as its last point. -/
theorem C7_polygons_closed (data : List TriIn) (poly : List Point)
    (h : poly ∈ geometry data) :
    poly.length = 4 ∧ ∃ p1 p2 p3, poly = [p1, p2, p3, p1] := by
  rw [geometry, scaleG] at h
  obtain ⟨q, hq, rfl⟩ := List.mem_map.mp h
  obtain ⟨t, ht, rfl⟩ := List.mem_map.mp hq
  exact ⟨rfl, scalePoint 10 (point2 t.v0), scalePoint 10 (point2 t.v1),
    scalePoint 10 (point2 t.v2), rfl⟩

/-- Witness for C7 at the single polygon produced from `sampleTri`. -/
theorem C7_polygons_closed_witness :
    ([point3 0 0 0, point3 10 0 0, point3 0 10 0, point3 0 0 0] : List Point).length = 4 ∧
    ∃ p1 p2 p3, ([point3 0 0 0, point3 10 0 0, point3 0 10 0, point3 0 0 0] : List Point)
        = [p1, p2, p3, p1] :=
  C7_polygons_closed [sampleTri] _ (by
    norm_num [geometry, scaleG, sampleTri, triPoly, point2, point3, scalePoint])

/-- The translation applied to ring `i`'s geometry in the OpenGL target
and to its labels in both targets: none for ring 1, `up1` for ring 2,
`up2` for ring 3. -/
def ringOffset (i : ℕ) : Point :=
  if i < 6 then pzero else if i < 30 then up1 else up2

/-- The ring index range containing index `i` (for `i < 126`). -/
def ringIdxOf (i : ℕ) : List ℕ :=
  if i < 6 then ringIdx1 else if i < 30 then ringIdx2 else ringIdx3

/-- The geometry list passed to `dGl.draw` for the ring containing
index `i`: the slice itself for ring 1, the translated slice for rings 2
and 3. -/
def glRingGeo (g : List (List Point)) (i : ℕ) : List (List Point) :=
  if i < 6 then ringSlice g ringIdx1
  else if i < 30 then translateG (ringSlice g ringIdx2) up1
  else translateG (ringSlice g ringIdx3) up2

lemma add_pzero (p : Point) : add p pzero = p := by
  cases p
  simp [add, pzero]

lemma labelPoint_eq_add_offset (i : ℕ) (t : List Point) :
    labelPoint i t = add (centroid t) (ringOffset i) := by
  unfold labelPoint ringOffset
  split_ifs with h1 h2
  · exact (add_pzero _).symm
  · rfl
  · rfl

lemma labelEvents_mem (g : List (List Point)) (tgt : Target) (i : ℕ)
    (h : i < g.length) :
    Ev.drawText tgt (labelColor i) (toString (i + 1))
      (labelPoint i (g.getD i [])) ∈ labelEvents g := by
  unfold labelEvents
  refine List.mem_flatMap.mpr ⟨i, List.mem_range.mpr h, ?_⟩
  cases tgt <;> simp

lemma mem_mainTrace_of_mem_labelEvents (g : List (List Point)) (ev : Ev)
    (h : ev ∈ labelEvents g) : ev ∈ mainTrace g := by
  simp only [mainTrace, List.mem_append]
  tauto

lemma mem_mainTrace_of_mem_rings (g : List (List Point)) (ev : Ev)
    (h : ev ∈ ring1Events g ++ ring2Events g ++ ring3Events g) :
    ev ∈ mainTrace g := by
  simp only [List.mem_append] at h
  simp only [mainTrace, List.mem_append]
  tauto

lemma labelColor_lt6 (i : ℕ) (h : i < 6) : labelColor i = .white := by
  simp [labelColor, h]

lemma labelColor_mid (i : ℕ) (h6 : 6 ≤ i) (h30 : i < 30) :
    labelColor i = .yellow := by
  simp [labelColor, Nat.not_lt.mpr h6, h30]

lemma labelColor_ge30 (i : ℕ) (h30 : 30 ≤ i) : labelColor i = .red := by
  have h6 : ¬ i < 6 := by omega
  simp [labelColor, h6, Nat.not_lt.mpr h30]

lemma ring_draw_events_mem (g : List (List Point)) (i : ℕ) (h126 : i < 126) :
    Ev.draw .dxf (labelColor i) (ringSlice g (ringIdxOf i)) ∈ mainTrace g ∧
    Ev.draw .gl (labelColor i) (glRingGeo g i) ∈ mainTrace g ∧
    i ∈ ringIdxOf i := by
  rcases Nat.lt_or_ge i 6 with h6 | h6
  · rw [labelColor_lt6 i h6]
    rw [show ringIdxOf i = ringIdx1 from by simp [ringIdxOf, h6]]
    rw [show glRingGeo g i = ringSlice g ringIdx1 from by simp [glRingGeo, h6]]
    refine ⟨?_, ?_, ?_⟩
    · exact mem_mainTrace_of_mem_rings g _ (by simp [ring1Events, ring2Events, ring3Events])
    · exact mem_mainTrace_of_mem_rings g _ (by simp [ring1Events, ring2Events, ring3Events])
    · simp [ringIdx1, List.mem_range'_1]
      omega
  rcases Nat.lt_or_ge i 30 with h30 | h30
  · rw [labelColor_mid i h6 h30]
    rw [show ringIdxOf i = ringIdx2 from by simp [ringIdxOf, Nat.not_lt.mpr h6, h30]]
    rw [show glRingGeo g i = translateG (ringSlice g ringIdx2) up1 from by
      simp [glRingGeo, Nat.not_lt.mpr h6, h30]]
    refine ⟨?_, ?_, ?_⟩
    · exact mem_mainTrace_of_mem_rings g _ (by simp [ring1Events, ring2Events, ring3Events])
    · exact mem_mainTrace_of_mem_rings g _ (by simp [ring1Events, ring2Events, ring3Events])
    · simp [ringIdx2, List.mem_range'_1]
      omega
  · rw [labelColor_ge30 i h30]
    rw [show ringIdxOf i = ringIdx3 from by
      simp [ringIdxOf, Nat.not_lt.mpr h6, Nat.not_lt.mpr h30]]
    rw [show glRingGeo g i = translateG (ringSlice g ringIdx3) up2 from by
      simp [glRingGeo, Nat.not_lt.mpr h6, Nat.not_lt.mpr h30]]
    refine ⟨?_, ?_, ?_⟩
    · exact mem_mainTrace_of_mem_rings g _ (by simp [ring1Events, ring2Events, ring3Events])
    · exact mem_mainTrace_of_mem_rings g _ (by simp [ring1Events, ring2Events, ring3Events])
    · simp [ringIdx3, List.mem_range'_1]
      omega

lemma labelPoint_ne_centroid (i : ℕ) (t : List Point) (h6 : 6 ≤ i) :
    labelPoint i t ≠ centroid t := by
  rw [labelPoint_eq_add_offset]
  intro heq
  have hz := congrArg Point.z heq
  simp only [add] at hz
  have hoz : (ringOffset i).z = 0 := by linarith
  rw [ringOffset] at hoz
  rcases Nat.lt_or_ge i 30 with h30 | h30
  · rw [if_neg (Nat.not_lt.mpr h6), if_pos h30] at hoz
    norm_num [up1, point3] at hoz
  · rw [if_neg (Nat.not_lt.mpr h6), if_neg (Nat.not_lt.mpr h30)] at hoz
    norm_num [up2, point3] at hoz

/-- C3: for every triangle index `i` of the geometry list, the label
loop issues `draw_text` on both targets with the string `str(i+1)`, at
the centroid of the triangle (the componentwise average of its three
distinct vertices `t[0]`, `t[1]`, `t[2]`) translated by the triangle's
ring offset (no offset for ring 1, `(0,0,0.3)` for ring 2, `(0,0,0.6)`
for ring 3), with the target's `linecolor` set to the ring's color by
the thresholds 6 and 30. -/
theorem C3_labels_at_offset_centroids (data : List TriIn) (i : ℕ)
    (h : i < (geometry data).length) :
    Ev.drawText .dxf (labelColor i) (toString (i + 1))
        (labelPoint i ((geometry data).getD i [])) ∈ mainTrace (geometry data) ∧
    Ev.drawText .gl (labelColor i) (toString (i + 1))
        (labelPoint i ((geometry data).getD i [])) ∈ mainTrace (geometry data) ∧
    labelPoint i ((geometry data).getD i [])
        = add (centroid ((geometry data).getD i [])) (ringOffset i) ∧
    (∀ t : List Point,
      (centroid t).x = ((t.getD 0 pzero).x + (t.getD 1 pzero).x + (t.getD 2 pzero).x) / 3 ∧
      (centroid t).y = ((t.getD 0 pzero).y + (t.getD 1 pzero).y + (t.getD 2 pzero).y) / 3 ∧
      (centroid t).z = ((t.getD 0 pzero).z + (t.getD 1 pzero).z + (t.getD 2 pzero).z) / 3) ∧
    (i < 6 → ringOffset i = pzero) ∧
    (6 ≤ i → i < 30 → ringOffset i = up1) ∧
    (30 ≤ i → ringOffset i = up2) := by
  refine ⟨mem_mainTrace_of_mem_labelEvents _ _ (labelEvents_mem _ _ i h),
          mem_mainTrace_of_mem_labelEvents _ _ (labelEvents_mem _ _ i h),
          labelPoint_eq_add_offset i _, ?_, ?_, ?_, ?_⟩
  · intro t
    refine ⟨?_, ?_, ?_⟩ <;> simp [centroid, scale3, add] <;> ring
  · intro h6
    simp [ringOffset, h6]
  · intro h6 h30
    simp [ringOffset, Nat.not_lt.mpr h6, h30]
  · intro h30
    have h6 : ¬ i < 6 := by omega
    simp [ringOffset, h6, Nat.not_lt.mpr h30]

/-- Witness for C3 at index 0 of the one-triangle input. -/
theorem C3_labels_at_offset_centroids_witness :
    Ev.drawText .dxf (labelColor 0) (toString (0 + 1))
        (labelPoint 0 ((geometry [sampleTri]).getD 0 []))
      ∈ mainTrace (geometry [sampleTri]) :=
  (C3_labels_at_offset_centroids [sampleTri] 0 (by simp [geometry_length])).1

/-- C8: in the main trace, `display()` is called exactly once on each
drawable target, the two calls are the last two events (after every
`draw` and `draw_text`), and the DXF target's `display()` comes
immediately before the OpenGL target's. -/
theorem C8_display_once_last_ordered (g : List (List Point)) :
    (mainTrace g).count (Ev.display .dxf) = 1 ∧
    (mainTrace g).count (Ev.display .gl) = 1 ∧
    ∃ pre, mainTrace g = pre ++ [Ev.display .dxf, Ev.display .gl] ∧
      ∀ e ∈ pre, e.isDisplay = false := by
  have hnd : ∀ e ∈ ring1Events g ++ ring2Events g ++ ring3Events g ++ labelEvents g
      ++ legendEvents .dxf (.index 256) ++ legendEvents .gl .yellow,
      e.isDisplay = false := by
    intro e he
    simp only [List.mem_append] at he
    rcases he with ((((h | h) | h) | h) | h) | h
    · simp [ring1Events] at h
      rcases h with h | h <;> subst h <;> rfl
    · simp [ring2Events] at h
      rcases h with h | h <;> subst h <;> rfl
    · simp [ring3Events] at h
      rcases h with h | h <;> subst h <;> rfl
    · rw [labelEvents] at h
      obtain ⟨i, hi, hm⟩ := List.mem_flatMap.mp h
      simp at hm
      rcases hm with hm | hm <;> subst hm <;> rfl
    · simp [legendEvents] at h
      rcases h with h | h | h <;> subst h <;> rfl
    · simp [legendEvents] at h
      rcases h with h | h | h <;> subst h <;> rfl
  have hsplit : mainTrace g
      = (ring1Events g ++ ring2Events g ++ ring3Events g ++ labelEvents g
          ++ legendEvents .dxf (.index 256) ++ legendEvents .gl .yellow)
        ++ [Ev.display .dxf, Ev.display .gl] := by
    simp [mainTrace, List.append_assoc]
  have hcount : ∀ tgt : Target,
      (ring1Events g ++ ring2Events g ++ ring3Events g ++ labelEvents g
        ++ legendEvents .dxf (.index 256) ++ legendEvents .gl .yellow).count
          (Ev.display tgt) = 0 := by
    intro tgt
    refine List.count_eq_zero.mpr (fun hmem => ?_)
    have := hnd _ hmem
    simp [Ev.isDisplay] at this
  refine ⟨?_, ?_, ?_⟩
  · rw [hsplit, List.count_append, hcount .dxf]
    rfl
  · rw [hsplit, List.count_append, hcount .gl]
    rfl
  · exact ⟨_, hsplit, hnd⟩

/-- C9: on the DXF target the geometry of rings 2 and 3 is drawn as the
untranslated slice (only the OpenGL target receives the translated
slice), while the DXF label of each triangle of those rings is drawn at
the centroid translated by the ring offset — so on the DXF target these
labels are not at the centroid of the triangle as drawn there. -/
theorem C9_dxf_labels_not_at_drawn_centroids (data : List TriIn) (i : ℕ)
    (h6 : 6 ≤ i) (h126 : i < 126) (hlen : i < (geometry data).length) :
    Ev.draw .dxf (labelColor i) (ringSlice (geometry data) (ringIdxOf i))
        ∈ mainTrace (geometry data) ∧
    (geometry data).getD i [] ∈ ringSlice (geometry data) (ringIdxOf i) ∧
    Ev.draw .gl (labelColor i) (glRingGeo (geometry data) i)
        ∈ mainTrace (geometry data) ∧
    glRingGeo (geometry data) i
        = translateG (ringSlice (geometry data) (ringIdxOf i)) (ringOffset i) ∧
    Ev.drawText .dxf (labelColor i) (toString (i + 1))
        (labelPoint i ((geometry data).getD i [])) ∈ mainTrace (geometry data) ∧
    labelPoint i ((geometry data).getD i [])
        = add (centroid ((geometry data).getD i [])) (ringOffset i) ∧
    labelPoint i ((geometry data).getD i [])
        ≠ centroid ((geometry data).getD i []) := by
  obtain ⟨hdxf, hgl, hidx⟩ := ring_draw_events_mem (geometry data) i h126
  refine ⟨hdxf, List.mem_map_of_mem _ hidx, hgl, ?_,
    mem_mainTrace_of_mem_labelEvents _ _ (labelEvents_mem _ _ i hlen),
    labelPoint_eq_add_offset i _, labelPoint_ne_centroid i _ h6⟩
  rcases Nat.lt_or_ge i 30 with h30 | h30
  · simp [glRingGeo, ringIdxOf, ringOffset, Nat.not_lt.mpr h6, h30]
  · simp [glRingGeo, ringIdxOf, ringOffset, Nat.not_lt.mpr h6, Nat.not_lt.mpr h30]

/-- A 7-triangle input, enough to reach ring 2. -/
def repData : List TriIn := List.replicate 7 sampleTri

/-- Witness for C9 at index 6 (first triangle of ring 2) of a 7-triangle
input. -/
theorem C9_dxf_labels_not_at_drawn_centroids_witness :
    Ev.draw .dxf (labelColor 6) (ringSlice (geometry repData) (ringIdxOf 6))
      ∈ mainTrace (geometry repData) ∧
    labelPoint 6 ((geometry repData).getD 6 [])
      ≠ centroid ((geometry repData).getD 6 []) :=
  have h := C9_dxf_labels_not_at_drawn_centroids repData 6
    (by decide) (by decide) (by simp [geometry_length, repData])
  ⟨h.1, h.2.2.2.2.2.2⟩

/-- C10: for every triangle index `i < 126`, the `linecolor` recorded on
the ring `draw` call whose slice contains triangle `i` (on both targets)
is the same color the label loop sets for `i`, determined by the
thresholds 6 and 30 (white, yellow, red), and the label text is the
1-based string `str(i+1)`. -/
theorem C10_ring_and_label_colors_agree (data : List TriIn) (i : ℕ)
    (h126 : i < 126) (hlen : i < (geometry data).length) :
    Ev.draw .dxf (labelColor i) (ringSlice (geometry data) (ringIdxOf i))
        ∈ mainTrace (geometry data) ∧
    Ev.draw .gl (labelColor i) (glRingGeo (geometry data) i)
        ∈ mainTrace (geometry data) ∧
    (geometry data).getD i [] ∈ ringSlice (geometry data) (ringIdxOf i) ∧
    labelColor i = (if i < 6 then Color.white else if i < 30 then Color.yellow
        else Color.red) ∧
    Ev.drawText .dxf (labelColor i) (toString (i + 1))
        (labelPoint i ((geometry data).getD i [])) ∈ mainTrace (geometry data) ∧
    Ev.drawText .gl (labelColor i) (toString (i + 1))
        (labelPoint i ((geometry data).getD i [])) ∈ mainTrace (geometry data) := by
  obtain ⟨hdxf, hgl, hidx⟩ := ring_draw_events_mem (geometry data) i h126
  exact ⟨hdxf, hgl, List.mem_map_of_mem _ hidx, rfl,
    mem_mainTrace_of_mem_labelEvents _ _ (labelEvents_mem _ _ i hlen),
    mem_mainTrace_of_mem_labelEvents _ _ (labelEvents_mem _ _ i hlen)⟩

/-- Witness for C10 at index 0 of the one-triangle input. -/
theorem C10_ring_and_label_colors_agree_witness :
    Ev.draw .dxf (labelColor 0) (ringSlice (geometry [sampleTri]) (ringIdxOf 0))
      ∈ mainTrace (geometry [sampleTri]) ∧
    labelColor 0 = (if 0 < 6 then Color.white else if 0 < 30 then Color.yellow
        else Color.red) :=
  have h := C10_ring_and_label_colors_agree [sampleTri] 0
    (by decide) (by simp [geometry_length])
  ⟨h.1, h.2.2.2.1⟩

end X5
